import Mathlib

/-!
Shallow embedding of `src/options/modules/AutomaticSettings/internal/HtmlModification.js`
(the option load/save/apply engine of the offline-qr-code repository).

Modelling conventions:
* JavaScript values are embedded as `JSVal`.  Plain objects are association
  lists `List (String × JSVal)` (first match wins on lookup, in-place update
  on assignment, append for a fresh key) — exactly the observable behaviour
  of a JS object used as a string-keyed map.  `NaN` is a separate
  constructor so that strict equality can be modelled faithfully
  (`NaN === NaN` is false).
* DOM elements are embedded as `Elem`.  The source reads only a fixed set of
  element members (the `type`, `data-type`, `name`, `value` and `checked`
  attributes, `dataset.name`, `dataset.optiongroup`, the `value`, `checked`,
  `indeterminate` and custom `selectedElement` properties, and the list of
  `<input>` descendants), so `Elem` carries exactly those.  The `<input>`
  children of a radiogroup are only ever read through their `type`/`value`/
  `checked` attributes, their `name`/`dataset.name` id and their `value`
  property, so they are embedded by the flat structure `RadioChild`.
* Thrown JS exceptions become `Except JSError`.  `Logger.logInfo` has no
  observable effect on the modelled state and is dropped.
* The module-level mutable variables `defaultOptionGetter` and
  `rememberedOptions` are passed (and returned) explicitly.
* JS object assignment stores references: `rememberedOptions[g] = obj` and
  the later in-place mutation of the cached aggregate during group
  extraction are modelled by returning the updated cache alongside the
  result.
-/

/-- Embedding of the JavaScript values this module manipulates. -/
inductive JSVal : Type where
  | undefined : JSVal
  | null : JSVal
  | bool : Bool → JSVal
  | num : Int → JSVal
  | nan : JSVal
  | str : String → JSVal
  | obj : List (String × JSVal) → JSVal

/-- The two kinds of exceptions the modelled code can raise:
`Error` objects thrown explicitly by the source, and implicit `TypeError`s
(dereferencing `undefined`/`null`, calling a non-function, strict-mode
assignment to a property of a non-object). -/
inductive JSError : Type where
  | error : String → JSError
  | typeError : String → JSError

/-- JS truthiness (`ToBoolean`). -/
def JSVal.truthy : JSVal → Bool
  | .undefined => false
  | .null => false
  | .bool b => b
  | .num n => decide (n ≠ 0)
  | .nan => false
  | .str s => decide (s ≠ "")
  | .obj _ => true

/-- Check used for the source's `=== undefined` / `!== undefined` tests. -/
def JSVal.isUndefined : JSVal → Bool
  | .undefined => true
  | _ => false

/-- Check used for the source's `=== null` tests. -/
def JSVal.isNull : JSVal → Bool
  | .null => true
  | _ => false

/-- JS strict equality (`===`) restricted to the comparisons the source
performs: one side is always a primitive (an attribute string, `null`, a
string literal, `true` or `undefined`), so object reference equality never
arises and `obj === obj` may safely be `false` here. -/
def JSVal.strictEq : JSVal → JSVal → Bool
  | .undefined, .undefined => true
  | .null, .null => true
  | .bool a, .bool b => a == b
  | .num a, .num b => a == b
  | .str a, .str b => a == b
  | _, _ => false

/-- JS `a || b`. -/
def jsOr (a b : JSVal) : JSVal :=
  if a.truthy then a else b

/-- Value of `el.getAttribute(attr)`: the string, or `null` when absent. -/
def attrToJS : Option String → JSVal
  | some s => .str s
  | none => .null

/-- Value of `el.dataset.x`: the string, or `undefined` when absent. -/
def dataToJS : Option String → JSVal
  | some s => .str s
  | none => .undefined

/-- JS `ToString` on a property key (used when a computed id is used as an
object key, e.g. `optionValue[currentOption] = currentOptionValue`). -/
def keyString : JSVal → String
  | .str s => s
  | .undefined => "undefined"
  | .null => "null"
  | .bool true => "true"
  | .bool false => "false"
  | .num n => toString n
  | .nan => "NaN"
  | .obj _ => "[object Object]"

/-- Property read on a JS object modelled as an association list:
first matching key wins, missing key reads as `undefined`. -/
def objGet : List (String × JSVal) → String → JSVal
  | [], _ => .undefined
  | (k, v) :: rest, key => if k = key then v else objGet rest key

/-- The source's `hasOwnProperty` / `in` test. -/
def objHas : List (String × JSVal) → String → Bool
  | [], _ => false
  | (k, _) :: rest, key => if k = key then true else objHas rest key

/-- Property write on a JS object: overwrite the existing key in place,
append when the key is fresh. -/
def objSet : List (String × JSVal) → String → JSVal → List (String × JSVal)
  | [], key, v => [(key, v)]
  | (k, w) :: rest, key, v =>
    if k = key then (key, v) :: rest else (k, w) :: objSet rest key v

/-- JS property read `base[key]`: throws a `TypeError` on `undefined` and
`null`, looks up plain objects, and yields `undefined` on the remaining
primitives (none of the keys the source uses is a built-in primitive
property). -/
def JSVal.index : JSVal → String → Except JSError JSVal
  | .obj o, key => .ok (objGet o key)
  | .undefined, _ => .error (.typeError "Cannot read properties of undefined")
  | .null, _ => .error (.typeError "Cannot read properties of null")
  | _, _ => .ok .undefined

/-- JS property write `base[key] = v` in strict mode (the source is an ES
module): succeeds on plain objects and throws a `TypeError` otherwise. -/
def JSVal.setProp : JSVal → String → JSVal → Except JSError JSVal
  | .obj o, key, v => .ok (.obj (objSet o key v))
  | .undefined, _, _ => .error (.typeError "Cannot set properties of undefined")
  | .null, _, _ => .error (.typeError "Cannot set properties of null")
  | _, _, _ => .error (.typeError "Cannot create property on a primitive value")

/-- JS `Number(v)` conversion, restricted to the integer literals that occur
as option values in this module (fractional, exponent and hex forms play no
role in any claim; a non-integer numeric string conservatively maps to
`NaN` like any other unparsable string). -/
def jsToNumber : JSVal → JSVal
  | .num n => .num n
  | .nan => .nan
  | .bool true => .num 1
  | .bool false => .num 0
  | .null => .num 0
  | .undefined => .nan
  | .str s =>
    let t := s.trim
    if t = "" then .num 0
    else
      match t.toInt? with
      | some n => .num n
      | none => .nan
  | .obj _ => .nan

/-- An `<input>` descendant of a radiogroup wrapper, carrying exactly the
members the source reads on such children. -/
structure RadioChild : Type where
  typeAttr : Option String
  valueAttr : Option String
  checkedAttr : Bool
  nameAttr : Option String
  dataName : Option String
  value : JSVal

/-- A DOM element as observed by this module (see the header comment for why
these members suffice). -/
structure Elem : Type where
  typeAttr : Option String
  dataTypeAttr : Option String
  nameAttr : Option String
  dataName : Option String
  dataOptiongroup : Option String
  value : JSVal
  checked : Bool
  indeterminate : Bool
  children : List RadioChild
  selectedElement : Option RadioChild

/-- The `type`-or-`data-type` dispatch value computed at the head of both
switches: `elOption.getAttribute("type") || elOption.getAttribute("data-type")`. -/
def dispatchType (el : Elem) : JSVal :=
  jsOr (attrToJS el.typeAttr) (attrToJS el.dataTypeAttr)

/-- The module-level `defaultOptionGetter` variable: `undefined` before
`setDefaultOptionProvider` is called, `null` when defaults are explicitly
disabled, or a callback from option/group id to a value. -/
inductive DefaultOptionProvider : Type where
  | unset : DefaultOptionProvider
  | nullProvider : DefaultOptionProvider
  | getter : (String → JSVal) → DefaultOptionProvider

/-- The `rememberedOptions` module state: a JS object from group id to the
last-seen aggregate (stored by reference in the source). -/
abbrev Remembered : Type := List (String × JSVal)

/-- Source `resetRememberedOptions()`: resets the state to a fresh empty
object. -/
def resetRememberedOptions : Remembered := []

/-- Source `isReady()`: throws when no default option provider has been set
(`defaultOptionGetter === undefined`), otherwise returns `true`. -/
def isReady (defaultOptionGetter : DefaultOptionProvider) : Except JSError Bool :=
  match defaultOptionGetter with
  | .unset =>
    .error (.error "Default option provider is not set. You need to call setDefaultOptionProvider() before .init() to set it.")
  | _ => .ok true

/-- The key actually consulted by `optionValues.hasOwnProperty(optionGroup)`:
a `null` group id is coerced to the string key `"null"` by `ToPropertyKey`. -/
def groupKey : Option String → String
  | some g => g
  | none => "null"

/-- Body of the radiogroup loop in `applyOptionToElement`: mark a child with
the `checked` attribute when it is a radio input whose `value` attribute is
strictly equal to the value being applied. -/
def setCheckedIfMatches (optionValue : JSVal) (radioElement : RadioChild) :
    RadioChild :=
  if (attrToJS radioElement.typeAttr).strictEq (.str "radio")
      && (attrToJS radioElement.valueAttr).strictEq optionValue then
    { radioElement with checkedAttr := true }
  else radioElement

/-- The child test of `getSelectedFromRadioGroup`: a radio input carrying
the `checked` attribute. -/
def isCheckedRadio (c : RadioChild) : Bool :=
  c.typeAttr == some "radio" && c.checkedAttr

/-- The `switch` at the tail of `applyOptionToElement` (lines 132–155):
write a resolved value into the element according to its dispatch type. -/
def writeToElement (elOption : Elem) (optionValue : JSVal) : Elem :=
  if (dispatchType elOption).strictEq (.str "checkbox") then
    if optionValue.isNull then
      { elOption with indeterminate := true }
    else
      { elOption with checked := optionValue.strictEq (.bool true) }
  else if (dispatchType elOption).strictEq (.str "radiogroup") then
    { elOption with
      children := elOption.children.map (setCheckedIfMatches optionValue) }
  else
    { elOption with value := optionValue }

/-- Source `applyOptionToElement(option, optionGroup, elOption, optionValues)`.
The provider and the remembered-options state are the module variables,
passed explicitly; the updated element and state are returned. -/
def applyOptionToElement (option : String) (optionGroup : Option String)
    (elOption : Elem) (optionValues : List (String × JSVal))
    (defaultOptionGetter : DefaultOptionProvider)
    (rememberedOptions : Remembered) : Except JSError (Elem × Remembered) :=
  if !objHas optionValues option && !objHas optionValues (groupKey optionGroup) then
    -- get default value if value is not passed
    match defaultOptionGetter with
    | .unset =>
      -- `defaultOptionGetter !== null` holds, but calling `undefined` throws
      .error (.typeError "defaultOptionGetter is not a function")
    | .nullProvider =>
      -- provider disabled: optionValue stays undefined, so return untouched
      .ok (elOption, rememberedOptions)
    | .getter f =>
      match optionGroup with
      | none =>
        let optionValue := f option
        if optionValue.isUndefined then .ok (elOption, rememberedOptions)
        else .ok (writeToElement elOption optionValue, rememberedOptions)
      | some g =>
        match (f g).index option with
        | .error e => .error e
        | .ok optionValue =>
          if optionValue.isUndefined then .ok (elOption, rememberedOptions)
          else .ok (writeToElement elOption optionValue, rememberedOptions)
  else
    -- as value is present, get value from settings array
    match optionGroup with
    | none =>
      .ok (writeToElement elOption (objGet optionValues option), rememberedOptions)
    | some g =>
      let allOptionsInGroup := objGet optionValues g
      match allOptionsInGroup.index option with
      | .error e => .error e
      | .ok optionValue =>
        -- save options if needed
        let rem :=
          if objHas rememberedOptions g then rememberedOptions
          else objSet rememberedOptions g allOptionsInGroup
        .ok (writeToElement elOption optionValue, rem)

/-- Source `getSelectedFromRadioGroup(elOption)`: prefer the custom
`selectedElement` property; otherwise scan the `<input>` children for the
first one with `type="radio"` carrying the `checked` attribute; throw when
nothing is selected. -/
def getSelectedFromRadioGroup (elOption : Elem) : Except JSError RadioChild :=
  match elOption.selectedElement with
  | some c => .ok c
  | none =>
    match elOption.children.find? isCheckedRadio with
    | some c => .ok c
    | none => .error (.error "no radio element is selected")

/-- Source `getOptionIdFromElement(elOption)`:
`elOption.getAttribute("name") || elOption.dataset.name`. -/
def getOptionIdFromElement (elOption : Elem) : JSVal :=
  jsOr (attrToJS elOption.nameAttr) (dataToJS elOption.dataName)

/-- The same id lookup applied to a radiogroup child. -/
def RadioChild.optionId (c : RadioChild) : JSVal :=
  jsOr (attrToJS c.nameAttr) (dataToJS c.dataName)

/-- Source `getIdAndOptionFromElement(elOption)`: single-widget extraction,
dispatching on the widget kind. -/
def getIdAndOptionFromElement (elOption : Elem) : Except JSError (JSVal × JSVal) :=
  if (dispatchType elOption).strictEq (.str "checkbox") then
    .ok (getOptionIdFromElement elOption,
      if elOption.indeterminate then .null else .bool elOption.checked)
  else if (dispatchType elOption).strictEq (.str "radiogroup") then
    match getSelectedFromRadioGroup elOption with
    | .error e => .error e
    | .ok elSelected =>
      let optionId :=
        if elSelected.optionId.isUndefined then getOptionIdFromElement elOption
        else elSelected.optionId
      .ok (optionId, elSelected.value)
  else if (dispatchType elOption).strictEq (.str "number")
      || (dispatchType elOption).strictEq (.str "range") then
    .ok (getOptionIdFromElement elOption, jsToNumber elOption.value)
  else
    .ok (getOptionIdFromElement elOption, elOption.value)

/-- The `forEach` loop of group extraction: single-extract each group member
and assign its id/value pair into the aggregate (which mutates the cached
object in place when the aggregate came from the cache).  The aggregate
reached so far is returned together with the first thrown error, if any, so
that partial in-place mutation before a throw stays observable. -/
def scanGroup : List Elem → JSVal → JSVal × Option JSError
  | [], acc => (acc, none)
  | elCurrentOption :: rest, acc =>
    match getIdAndOptionFromElement elCurrentOption with
    | .error e => (acc, some e)
    | .ok (currentOption, currentOptionValue) =>
      match acc.setProp (keyString currentOption) currentOptionValue with
      | .error e => (acc, some e)
      | .ok acc₂ => scanGroup rest acc₂

/-- Source `getIdAndOptionsFromElement(elOption, useDatagroup = true)`.
The document scope is passed explicitly as the ordered list of elements;
`document.querySelectorAll("[data-optiongroup=g]")` is the in-order filter
of that scope by the `data-optiongroup` value.  Returns the result (or the
propagated exception) together with the updated remembered-options state. -/
def getIdAndOptionsFromElement (doc : List Elem) (elOption : Elem)
    (useDatagroup : Bool) (rememberedOptions : Remembered) :
    Except JSError (JSVal × JSVal) × Remembered :=
  match useDatagroup, elOption.dataOptiongroup with
  | true, some optionGroup =>
    -- if options are cached/saved use them to prevent them from getting lost
    let seed :=
      if objHas rememberedOptions optionGroup then
        objGet rememberedOptions optionGroup
      else .obj []
    let members := doc.filter (fun e => e.dataOptiongroup == some optionGroup)
    let scanned := scanGroup members seed
    -- the cached object, when present, was mutated in place by the loop
    let rem :=
      if objHas rememberedOptions optionGroup then
        objSet rememberedOptions optionGroup scanned.fst
      else rememberedOptions
    match scanned.snd with
    | some e => (.error e, rem)
    | none => (.ok (.str optionGroup, scanned.fst), rem)
  | _, _ => (getIdAndOptionFromElement elOption, rememberedOptions)

/-! ## Basic lemmas about the JS object embedding -/

theorem objGet_of_objHas_false (o : List (String × JSVal)) (k : String)
    (h : objHas o k = false) : objGet o k = .undefined := by
  induction o with
  | nil => rfl
  | cons kv rest ih =>
    obtain ⟨k₁, v₁⟩ := kv
    by_cases hk : k₁ = k
    · simp [objHas, hk] at h
    · simp only [objHas, hk, if_false] at h
      simp [objGet, hk, ih h]

theorem objGet_objSet (o : List (String × JSVal)) (key : String) (v : JSVal)
    (k : String) :
    objGet (objSet o key v) k = if key = k then v else objGet o k := by
  induction o with
  | nil => rfl
  | cons kv rest ih =>
    obtain ⟨k₁, v₁⟩ := kv
    by_cases h₁ : k₁ = key
    · subst h₁
      by_cases h₂ : k₁ = k <;> simp [objSet, objGet, h₂]
    · by_cases h₂ : k₁ = k
      · subst h₂
        have : ¬ key = k₁ := fun h => h₁ h.symm
        simp [objSet, objGet, h₁, this]
      · simp [objSet, objGet, h₁, h₂, ih]

theorem objHas_objSet_self (o : List (String × JSVal)) (key : String) (v : JSVal) :
    objHas (objSet o key v) key = true := by
  induction o with
  | nil => simp [objSet, objHas]
  | cons kv rest ih =>
    obtain ⟨k₁, v₁⟩ := kv
    by_cases h₁ : k₁ = key <;> simp [objSet, objHas, h₁, ih]

theorem attrToJS_strictEq_str (a : Option String) (s : String) :
    (attrToJS a).strictEq (.str s) = (a == some s) := by
  cases a <;> simp [attrToJS, JSVal.strictEq]

/-! ## Concrete elements used by witnesses and counterexamples -/

/-- A plain text widget named `a`, member of option group `g`, holding `"x"`. -/
def elTextA : Elem :=
  { typeAttr := some "text", dataTypeAttr := none, nameAttr := some "a",
    dataName := none, dataOptiongroup := some "g", value := .str "x",
    checked := false, indeterminate := false, children := [],
    selectedElement := none }

/-- A number widget named `b`, member of option group `g`, holding `2`. -/
def elNumberB : Elem :=
  { typeAttr := some "number", dataTypeAttr := none, nameAttr := some "b",
    dataName := none, dataOptiongroup := some "g", value := .num 2,
    checked := false, indeterminate := false, children := [],
    selectedElement := none }

/-- An ungrouped tri-state checkbox widget named `c`, currently unchecked. -/
def elCheckboxC : Elem :=
  { typeAttr := some "checkbox", dataTypeAttr := none, nameAttr := some "c",
    dataName := none, dataOptiongroup := none, value := .undefined,
    checked := false, indeterminate := false, children := [],
    selectedElement := none }

/-- A radio child named `r` with `value="one"` (value property in sync with
the attribute, as for an untouched DOM input), not checked. -/
def radioOne : RadioChild :=
  { typeAttr := some "radio", valueAttr := some "one", checkedAttr := false,
    nameAttr := some "r", dataName := none, value := .str "one" }

/-- An ungrouped radiogroup wrapper named `rg` with the single child
`radioOne` and no selected-element shortcut. -/
def elRadiogroup : Elem :=
  { typeAttr := none, dataTypeAttr := some "radiogroup", nameAttr := some "rg",
    dataName := none, dataOptiongroup := none, value := .undefined,
    checked := false, indeterminate := false, children := [radioOne],
    selectedElement := none }

/-! ## C7 -/

/-- C7: `isReady()` returns `true` once a default option provider has been
registered (a callback, or `null` to disable default lookup), and throws the
configuration error when called while the provider is still unset. -/
theorem isReady_spec :
    (∀ f : String → JSVal, isReady (.getter f) = .ok true)
    ∧ isReady .nullProvider = .ok true
    ∧ isReady .unset
        = .error (.error "Default option provider is not set. You need to call setDefaultOptionProvider() before .init() to set it.") :=
  ⟨fun _ => rfl, rfl, rfl⟩

/-! ## C9 -/

/-- C9: when the loaded value map contains the option id but not the group
id of a grouped option, `applyOptionToElement` dereferences the missing
group's map and throws a `TypeError` instead of applying the direct value or
silently skipping. -/
theorem applyOption_missing_group_throws (option g : String) (el : Elem)
    (vals : List (String × JSVal)) (p : DefaultOptionProvider) (rem : Remembered)
    (hopt : objHas vals option = true)
    (hgrp : objHas vals g = false) :
    applyOptionToElement option (some g) el vals p rem
      = .error (.typeError "Cannot read properties of undefined") := by
  have hget : objGet vals g = .undefined := objGet_of_objHas_false _ _ hgrp
  simp [applyOptionToElement, hopt, groupKey, hget, JSVal.index]

/-- Witness for C9 at a concrete input: option `a` is stored directly but
group `g` has no entry, so the apply call throws. -/
theorem applyOption_missing_group_throws_witness :
    applyOptionToElement "a" (some "g") elTextA [("a", .num 1)] .nullProvider []
      = .error (.typeError "Cannot read properties of undefined") :=
  applyOption_missing_group_throws "a" "g" elTextA [("a", .num 1)]
    .nullProvider [] rfl rfl

/-! ## C5 -/

/-- C5: on a tri-state toggle (checkbox dispatch), applying `null` sets the
indeterminate flag, applying any non-null value sets the checked flag to
`value === true`, extracting an indeterminate toggle yields `null` and an
unambiguous one yields the checked boolean — so `null` round-trips through
apply-then-extract. -/
theorem checkbox_tristate_spec (el : Elem) (option : String) (v : JSVal)
    (vals : List (String × JSVal)) (p : DefaultOptionProvider) (rem : Remembered)
    (ht : dispatchType el = .str "checkbox")
    (hhas : objHas vals option = true)
    (hval : objGet vals option = v) :
    (v = .null →
      applyOptionToElement option none el vals p rem
        = .ok ({ el with indeterminate := true }, rem))
    ∧ (v.isNull = false →
      applyOptionToElement option none el vals p rem
        = .ok ({ el with checked := v.strictEq (.bool true) }, rem))
    ∧ (el.indeterminate = true →
      getIdAndOptionFromElement el = .ok (getOptionIdFromElement el, .null))
    ∧ (el.indeterminate = false →
      getIdAndOptionFromElement el = .ok (getOptionIdFromElement el, .bool el.checked))
    ∧ (v = .null →
      (applyOptionToElement option none el vals p rem).map
          (fun r => getIdAndOptionFromElement r.fst)
        = .ok (.ok (getOptionIdFromElement el, .null))) := by
  refine ⟨?_, ?_, ?_, ?_, ?_⟩
  · intro hv
    subst hv
    simp [applyOptionToElement, hhas, hval, writeToElement, ht, JSVal.strictEq,
      JSVal.isNull]
  · intro hv
    simp [applyOptionToElement, hhas, hval, writeToElement, ht, JSVal.strictEq, hv]
  · intro hi
    simp [getIdAndOptionFromElement, ht, JSVal.strictEq, hi]
  · intro hi
    simp [getIdAndOptionFromElement, ht, JSVal.strictEq, hi]
  · intro hv
    subst hv
    have ht₂ : jsOr (attrToJS el.typeAttr) (attrToJS el.dataTypeAttr)
        = .str "checkbox" := ht
    simp [applyOptionToElement, hhas, hval, writeToElement, dispatchType, ht₂,
      JSVal.strictEq, JSVal.isNull, getIdAndOptionFromElement, getOptionIdFromElement,
      Except.map]

/-- Witness for C5 at a concrete toggle: applying `null` to checkbox `c`
makes it indeterminate, and extracting the indeterminate toggle yields
`null`. -/
theorem checkbox_tristate_spec_witness :
    applyOptionToElement "c" none elCheckboxC [("c", .null)] .nullProvider []
      = .ok ({ elCheckboxC with indeterminate := true }, [])
    ∧ getIdAndOptionFromElement { elCheckboxC with indeterminate := true }
      = .ok (.str "c", .null) :=
  ⟨(checkbox_tristate_spec elCheckboxC "c" .null [("c", .null)] .nullProvider []
      rfl rfl rfl).1 rfl,
   (checkbox_tristate_spec { elCheckboxC with indeterminate := true } "c" .null
      [("c", .null)] .nullProvider [] rfl rfl rfl).2.2.1 rfl⟩

/-! ## C2 -/

/-- C2: extracting a radiogroup with no selected-element shortcut fails with
the selection error exactly when no child carries the selected flag, and
otherwise returns the selected child's own id and value (not the group
wrapper's). -/
theorem radiogroup_selection_spec (el : Elem)
    (ht : dispatchType el = .str "radiogroup")
    (hsel : el.selectedElement = none) :
    (el.children.find? isCheckedRadio = none →
      getIdAndOptionFromElement el
        = .error (.error "no radio element is selected"))
    ∧ (∀ c, el.children.find? isCheckedRadio = some c →
      c.optionId.isUndefined = false →
      getIdAndOptionFromElement el = .ok (c.optionId, c.value)) := by
  constructor
  · intro hfind
    simp [getIdAndOptionFromElement, ht, JSVal.strictEq,
      getSelectedFromRadioGroup, hsel, hfind]
  · intro c hfind hid
    simp [getIdAndOptionFromElement, ht, JSVal.strictEq,
      getSelectedFromRadioGroup, hsel, hfind, hid]

/-- Witness for C2 at concrete inputs: the radiogroup with its single child
unchecked throws the selection error, and with the child checked it returns
the child id `r` and value `"one"` rather than the wrapper id `rg`. -/
theorem radiogroup_selection_spec_witness :
    getIdAndOptionFromElement elRadiogroup
      = .error (.error "no radio element is selected")
    ∧ getIdAndOptionFromElement
        { elRadiogroup with children := [{ radioOne with checkedAttr := true }] }
      = .ok (.str "r", .str "one") :=
  ⟨(radiogroup_selection_spec elRadiogroup rfl rfl).1 rfl,
   (radiogroup_selection_spec
      { elRadiogroup with children := [{ radioOne with checkedAttr := true }] }
      rfl rfl).2 { radioOne with checkedAttr := true } rfl rfl⟩

/-! ## C4 -/

/-- Counterexample to C4 as stated: for a grouped option absent from the
loaded map, a provider that yields no default (`undefined`) for the group id
makes `applyOptionToElement` throw a `TypeError` (the source indexes the
provider's result with the option id) instead of returning without error. -/
theorem applyOption_grouped_missing_default_throws :
    applyOptionToElement "a" (some "g") elTextA []
        (.getter fun _ => .undefined) []
      = .error (.typeError "Cannot read properties of undefined") := rfl

/-- C4 (amended): with option id and group id both absent from the loaded
map, the call leaves the widget untouched and raises no error whenever the
default lookup is disabled by a `null` provider, or the option is ungrouped
and the provider yields `undefined`, or the option is grouped and the
provider yields an object for the group that lacks the option's key.  (When
the provider yields `undefined` for a grouped option's group id, the call
throws instead — see the counterexample.) -/
theorem applyOption_silent_skip (option : String) (optionGroup : Option String)
    (el : Elem) (vals : List (String × JSVal)) (rem : Remembered)
    (hopt : objHas vals option = false)
    (hgrp : objHas vals (groupKey optionGroup) = false) :
    (applyOptionToElement option optionGroup el vals .nullProvider rem
      = .ok (el, rem))
    ∧ (∀ f : String → JSVal, optionGroup = none → f option = .undefined →
        applyOptionToElement option optionGroup el vals (.getter f) rem
          = .ok (el, rem))
    ∧ (∀ f : String → JSVal, ∀ g : String, ∀ o : List (String × JSVal),
        optionGroup = some g → f g = .obj o → objGet o option = .undefined →
        applyOptionToElement option optionGroup el vals (.getter f) rem
          = .ok (el, rem)) := by
  refine ⟨?_, ?_, ?_⟩
  · simp [applyOptionToElement, hopt, hgrp]
  · intro f hgn hf
    subst hgn
    simp [applyOptionToElement, hopt, hgrp, hf, JSVal.isUndefined]
  · intro f g o hgs hf ho
    subst hgs
    simp [applyOptionToElement, hopt, hgrp, hf, ho, JSVal.index, JSVal.isUndefined]

/-- Witness for the amended C4 at concrete inputs: with an empty loaded map,
a `null` provider leaves the text widget untouched, and so does a provider
whose group object lacks the option's key. -/
theorem applyOption_silent_skip_witness :
    applyOptionToElement "a" none elTextA [] .nullProvider [] = .ok (elTextA, [])
    ∧ applyOptionToElement "a" (some "g") elTextA []
        (.getter fun _ => .obj [("b", .num 1)]) [] = .ok (elTextA, []) :=
  ⟨(applyOption_silent_skip "a" none elTextA [] [] rfl rfl).1,
   (applyOption_silent_skip "a" (some "g") elTextA [] [] rfl rfl).2.2
     (fun _ => .obj [("b", .num 1)]) "g" [("b", .num 1)] rfl rfl rfl⟩

/-! ## C8 -/

/-- C8: for an option absent from the loaded map whose provider supplies a
defined default, `applyOptionToElement` writes exactly that default into the
widget (via the per-kind write dispatch) and leaves the remembered-options
state unchanged; for a grouped option the default is the option's entry
inside the provider's result for the group id. -/
theorem applyOption_uses_default (el : Elem) (option : String)
    (vals : List (String × JSVal)) (rem : Remembered) (f : String → JSVal)
    (d : JSVal)
    (hopt : objHas vals option = false)
    (hd : d.isUndefined = false) :
    (objHas vals "null" = false → f option = d →
      applyOptionToElement option none el vals (.getter f) rem
        = .ok (writeToElement el d, rem))
    ∧ (∀ g : String, objHas vals g = false → (f g).index option = .ok d →
      applyOptionToElement option (some g) el vals (.getter f) rem
        = .ok (writeToElement el d, rem)) := by
  constructor
  · intro hnull hf
    simp [applyOptionToElement, hopt, groupKey, hnull, hf, hd]
  · intro g hg hf
    simp [applyOptionToElement, hopt, groupKey, hg, hf, hd]

/-- Witness for C8 at concrete inputs: the provider's default `"dflt"` is
written into the text widget's value slot both for the ungrouped option `a`
and, through the group object returned for `g`, for the grouped option `a`. -/
theorem applyOption_uses_default_witness :
    applyOptionToElement "a" none elTextA [] (.getter fun _ => .str "dflt") []
      = .ok ({ elTextA with value := .str "dflt" }, [])
    ∧ applyOptionToElement "a" (some "g") elTextA []
        (.getter fun _ => .obj [("a", .str "dflt")]) []
      = .ok ({ elTextA with value := .str "dflt" }, []) :=
  ⟨(applyOption_uses_default elTextA "a" [] [] (fun _ => .str "dflt")
      (.str "dflt") rfl rfl).1 rfl rfl,
   (applyOption_uses_default elTextA "a" [] [] (fun _ => .obj [("a", .str "dflt")])
      (.str "dflt") rfl rfl).2 "g" rfl rfl⟩

/-! ## C10 -/

/-- C10: group extraction mutates the cached aggregate in place — whenever
the remembered-options state holds an entry for the widget's group, the
state returned by `getIdAndOptionsFromElement(el, true)` maps that group to
exactly the aggregate the call returns. -/
theorem groupExtraction_updates_cache (doc : List Elem) (el : Elem) (g : String)
    (rem : Remembered) (agg : JSVal)
    (hg : el.dataOptiongroup = some g)
    (hhas : objHas rem g = true)
    (hok : (getIdAndOptionsFromElement doc el true rem).fst = .ok (.str g, agg)) :
    objGet (getIdAndOptionsFromElement doc el true rem).snd g = agg := by
  simp only [getIdAndOptionsFromElement, hg, hhas, if_true] at hok ⊢
  rcases hscan :
      (scanGroup (doc.filter fun e => e.dataOptiongroup == some g)
        (objGet rem g)).snd with _ | e
  · rw [hscan] at hok
    simp only at hok
    rw [objGet_objSet]
    simp only [if_pos rfl]
    exact congrArg (fun r => (Prod.snd r : JSVal)) (Except.ok.inj hok)
  · rw [hscan] at hok
    simp at hok

/-- Witness for C10 at a concrete input: the cache holds a stale aggregate
for group `g`; extracting via widget `a` returns the re-scanned aggregate
and the returned state maps `g` to that very aggregate. -/
theorem groupExtraction_updates_cache_witness :
    objGet (getIdAndOptionsFromElement [elTextA] elTextA true
        [("g", .obj [("a", .str "old"), ("keep", .bool true)])]).snd "g"
      = .obj [("a", .str "x"), ("keep", .bool true)] :=
  groupExtraction_updates_cache [elTextA] elTextA "g"
    [("g", .obj [("a", .str "old"), ("keep", .bool true)])]
    (.obj [("a", .str "x"), ("keep", .bool true)]) rfl rfl rfl

/-! ## C6 -/

/-- Counterexample to C6 as stated: the claimed per-group state machine has
the transition `absent → cached` on the first Apply **or Extract** touching
the group, but a first Extract of group `g` (after a reset) succeeds while
leaving the state without any entry for `g` — extraction never creates a
cache entry. -/
theorem extract_does_not_cache_counterexample :
    (getIdAndOptionsFromElement [elTextA] elTextA true resetRememberedOptions).fst
      = .ok (.str "g", .obj [("a", .str "x")])
    ∧ (getIdAndOptionsFromElement [elTextA] elTextA true resetRememberedOptions).snd
      = resetRememberedOptions
    ∧ objHas (getIdAndOptionsFromElement [elTextA] elTextA true
        resetRememberedOptions).snd "g" = false :=
  ⟨rfl, rfl, rfl⟩

/-- C6 (amended): the cache follows the per-group state machine
`absent → cached` on the first **Apply** that touches the group with a
stored group value (an Apply touching an already-cached group leaves the
entry unchanged), `cached → absent` on `resetRememberedOptions`, and
**Extract never creates an entry** — extracting an uncached group leaves
the state unchanged; consequently, after a reset a group extraction whose
members have not been re-applied seeds from an empty map and reflects only
live widget state. -/
theorem rememberedOptions_state_machine :
    (∀ (option g : String) (el : Elem) (vals : List (String × JSVal))
        (p : DefaultOptionProvider) (rem : Remembered) (v : JSVal),
      objHas vals g = true → (objGet vals g).index option = .ok v →
      applyOptionToElement option (some g) el vals p rem
        = .ok (writeToElement el v,
            if objHas rem g then rem else objSet rem g (objGet vals g)))
    ∧ (∀ (doc : List Elem) (el : Elem) (g : String) (rem : Remembered),
      el.dataOptiongroup = some g → objHas rem g = false →
      (getIdAndOptionsFromElement doc el true rem).snd = rem)
    ∧ (∀ g : String, objHas resetRememberedOptions g = false)
    ∧ (∀ (doc : List Elem) (el : Elem) (g : String) (agg : JSVal),
      el.dataOptiongroup = some g →
      scanGroup (doc.filter fun e => e.dataOptiongroup == some g) (.obj [])
        = (agg, none) →
      getIdAndOptionsFromElement doc el true resetRememberedOptions
        = (.ok (.str g, agg), resetRememberedOptions)) := by
  refine ⟨?_, ?_, ?_, ?_⟩
  · intro option g el vals p rem v hg hv
    simp [applyOptionToElement, groupKey, hg, hv]
  · intro doc el g rem hg hhas
    simp only [getIdAndOptionsFromElement, hg, hhas, Bool.false_eq_true,
      if_false]
    rcases (scanGroup (doc.filter fun e => e.dataOptiongroup == some g)
        (.obj [])).snd with _ | e <;> rfl
  · intro g
    rfl
  · intro doc el g agg hg hscan
    simp [getIdAndOptionsFromElement, hg, resetRememberedOptions, objHas, hscan]

/-- Witness for the amended C6 at concrete inputs: applying grouped option
`a` caches group `g`, and a post-reset extraction of `g` returns only the
live widget state. -/
theorem rememberedOptions_state_machine_witness :
    applyOptionToElement "a" (some "g") elTextA [("g", .obj [("a", .num 1)])]
        .nullProvider []
      = .ok ({ elTextA with value := .num 1 }, [("g", .obj [("a", .num 1)])])
    ∧ getIdAndOptionsFromElement [elNumberB] elNumberB true resetRememberedOptions
      = (.ok (.str "g", .obj [("b", .num 2)]), resetRememberedOptions) :=
  ⟨rememberedOptions_state_machine.1 "a" "g" elTextA
      [("g", .obj [("a", .num 1)])] .nullProvider [] (.num 1) rfl rfl,
   rememberedOptions_state_machine.2.2.2 [elNumberB] elNumberB "g"
      (.obj [("b", .num 2)]) rfl rfl⟩

/-! ## C1 -/

/-- Specification-side description of one pass of the group-extraction loop:
the id/value pairs (ids coerced to property keys) produced by single
extraction of each member, defined only when no member extraction throws. -/
def scannedPairs : List Elem → Option (List (String × JSVal))
  | [] => some []
  | e :: rest =>
    match getIdAndOptionFromElement e with
    | .error _ => none
    | .ok (id, v) => (scannedPairs rest).map (fun ps => (keyString id, v) :: ps)

/-- Writing a list of id/value pairs into an aggregate, left to right. -/
def foldSet (o : List (String × JSVal)) (ps : List (String × JSVal)) :
    List (String × JSVal) :=
  ps.foldl (fun acc kv => objSet acc kv.fst kv.snd) o

/-- The value assigned last for a key by a pair list, if any. -/
def lastAssoc : List (String × JSVal) → String → Option JSVal
  | [], _ => none
  | (k, v) :: rest, key =>
    match lastAssoc rest key with
    | some w => some w
    | none => if k = key then some v else none

theorem scanGroup_of_scannedPairs (es : List Elem) (o ps : List (String × JSVal))
    (h : scannedPairs es = some ps) :
    scanGroup es (.obj o) = (.obj (foldSet o ps), none) := by
  induction es generalizing o ps with
  | nil =>
    simp only [scannedPairs, Option.some.injEq] at h
    subst h
    rfl
  | cons e rest ih =>
    simp only [scannedPairs] at h
    cases he : getIdAndOptionFromElement e with
    | error err =>
      simp only [he] at h
      exact Option.noConfusion h
    | ok idv =>
      obtain ⟨id, v⟩ := idv
      simp only [he] at h
      cases hrest : scannedPairs rest with
      | none =>
        simp only [hrest, Option.map_none'] at h
        exact Option.noConfusion h
      | some ps₂ =>
        simp only [hrest, Option.map_some', Option.some.injEq] at h
        subst h
        simp only [scanGroup, he, JSVal.setProp]
        exact ih (objSet o (keyString id) v) ps₂ hrest

theorem objGet_foldSet (ps : List (String × JSVal)) (o : List (String × JSVal))
    (k : String) :
    objGet (foldSet o ps) k = (lastAssoc ps k).getD (objGet o k) := by
  induction ps generalizing o with
  | nil => rfl
  | cons kv ps ih =>
    obtain ⟨k₁, v₁⟩ := kv
    have hstep : foldSet o ((k₁, v₁) :: ps) = foldSet (objSet o k₁ v₁) ps := rfl
    rw [hstep, ih]
    rcases hl : lastAssoc ps k with _ | w
    · simp only [lastAssoc, hl, Option.getD_none, objGet_objSet]
      by_cases hk : k₁ = k <;> simp [hk]
    · simp [lastAssoc, hl]

/-- C1: extracting via any widget of group `G` in group mode returns the
pair `(G, aggregate)`, where the aggregate is the cache entry for `G` (or an
empty map when none exists) overwritten, member by member in document
order, with the single-extracted id/value pair of every widget in scope
declaring group `G`; every key not re-assigned by the scan keeps its cached
value in the result. -/
theorem groupExtraction_aggregates (doc : List Elem) (el : Elem) (g : String)
    (rem : Remembered) (o ps : List (String × JSVal))
    (hg : el.dataOptiongroup = some g)
    (hseed : (if objHas rem g then objGet rem g else .obj []) = .obj o)
    (hscan : scannedPairs (doc.filter fun e => e.dataOptiongroup == some g)
      = some ps) :
    (getIdAndOptionsFromElement doc el true rem).fst
      = .ok (.str g, .obj (foldSet o ps))
    ∧ (∀ k, objGet (foldSet o ps) k = (lastAssoc ps k).getD (objGet o k)) := by
  constructor
  · simp only [getIdAndOptionsFromElement, hg, hseed,
      scanGroup_of_scannedPairs _ o ps hscan]
  · intro k
    exact objGet_foldSet ps o k

/-- Witness for C1 at a concrete input: group `g` has cached members
`{a: "old", keep: true}`; extracting via widget `a` alone, with widgets `a`
and `b` in scope, returns `{a: "x", b: 2, keep: true}` — both members are
re-scanned and the untouched cached key `keep` survives. -/
theorem groupExtraction_aggregates_witness :
    (getIdAndOptionsFromElement [elTextA, elNumberB] elTextA true
        [("g", .obj [("a", .str "old"), ("keep", .bool true)])]).fst
      = .ok (.str "g",
          .obj (foldSet [("a", .str "old"), ("keep", .bool true)]
            [("a", .str "x"), ("b", .num 2)]))
    ∧ objGet (foldSet [("a", .str "old"), ("keep", .bool true)]
          [("a", .str "x"), ("b", .num 2)]) "keep" = .bool true :=
  ⟨(groupExtraction_aggregates [elTextA, elNumberB] elTextA "g"
      [("g", .obj [("a", .str "old"), ("keep", .bool true)])]
      [("a", .str "old"), ("keep", .bool true)]
      [("a", .str "x"), ("b", .num 2)] rfl rfl rfl).1,
   (groupExtraction_aggregates [elTextA, elNumberB] elTextA "g"
      [("g", .obj [("a", .str "old"), ("keep", .bool true)])]
      [("a", .str "old"), ("keep", .bool true)]
      [("a", .str "x"), ("b", .num 2)] rfl rfl rfl).2 "keep"⟩

/-! ## C3 -/

/-- Counterexample to C3 as stated: the value `true` is present in the
loaded map for toggle `c`, but the toggle is currently indeterminate;
applying `true` sets the checked flag without clearing the indeterminate
flag, so the immediate extraction returns `null`, not the original `true`. -/
theorem apply_extract_not_inverse_counterexample :
    applyOptionToElement "c" none { elCheckboxC with indeterminate := true }
        [("c", .bool true)] .nullProvider []
      = .ok ({ elCheckboxC with indeterminate := true, checked := true }, [])
    ∧ getIdAndOptionFromElement
        { elCheckboxC with indeterminate := true, checked := true }
      = .ok (.str "c", .null)
    ∧ JSVal.null ≠ JSVal.bool true :=
  ⟨rfl, rfl, fun h => JSVal.noConfusion h⟩

/-- Apply followed immediately by a single extraction from the same
(ungrouped) widget: the composition the round-trip property quantifies
over. -/
def applyThenExtract (option : String) (el : Elem)
    (vals : List (String × JSVal)) (p : DefaultOptionProvider)
    (rem : Remembered) : Except JSError (JSVal × JSVal) :=
  match applyOptionToElement option none el vals p rem with
  | .error e => .error e
  | .ok r => getIdAndOptionFromElement r.fst

theorem strictEq_str_str (a b : String) :
    (JSVal.str a).strictEq (.str b) = (a == b) := rfl

theorem find_checked_after_write (l : List RadioChild) (s : String)
    (hall : ∀ c ∈ l, c.checkedAttr = false) :
    (l.map (setCheckedIfMatches (.str s))).find? isCheckedRadio
      = ((l.find? fun c => c.typeAttr == some "radio" && c.valueAttr == some s).map
          fun c => { c with checkedAttr := true }) := by
  induction l with
  | nil => rfl
  | cons c rest ih =>
    have hc : c.checkedAttr = false := hall c (by simp)
    have hrest : ∀ x ∈ rest, x.checkedAttr = false := fun x hx =>
      hall x (by simp [hx])
    rw [List.map_cons]
    cases h₁ : (c.typeAttr == some "radio") with
    | false =>
      have hskip : setCheckedIfMatches (.str s) c = c := by
        simp [setCheckedIfMatches, attrToJS_strictEq_str, h₁]
      have hp : isCheckedRadio c = false := by simp [isCheckedRadio, h₁]
      have hq : (c.typeAttr == some "radio" && c.valueAttr == some s) = false := by
        simp [h₁]
      rw [hskip, List.find?_cons, List.find?_cons, hp, hq]
      exact ih hrest
    | true =>
      cases h₂ : (c.valueAttr == some s) with
      | false =>
        have hskip : setCheckedIfMatches (.str s) c = c := by
          simp [setCheckedIfMatches, attrToJS_strictEq_str, h₂]
        have hp : isCheckedRadio c = false := by simp [isCheckedRadio, hc]
        have hq : (c.typeAttr == some "radio" && c.valueAttr == some s) = false := by
          simp [h₂]
        rw [hskip, List.find?_cons, List.find?_cons, hp, hq]
        exact ih hrest
      | true =>
        have hset : setCheckedIfMatches (.str s) c
            = { c with checkedAttr := true } := by
          simp [setCheckedIfMatches, attrToJS_strictEq_str, h₁, h₂]
        have hp : isCheckedRadio { c with checkedAttr := true } = true := by
          simp [isCheckedRadio, h₁]
        have hq : (c.typeAttr == some "radio" && c.valueAttr == some s) = true := by
          simp [h₁, h₂]
        rw [hset, List.find?_cons, List.find?_cons, hp, hq]
        rfl

/-- C3 (amended): apply-then-extract on the same widget returns the
originally stored value for every widget kind under kind-appropriate
conditions — a toggle that is not already indeterminate with a tri-state
boolean value; a numeric (number/range) widget with a number value; a plain
widget with any value; and a radiogroup with a string value for which a
`type="radio"` child carrying that value attribute exists, whose value
property agrees with its value attribute, when no child is pre-checked and
no selected-element shortcut is set.  (Without these conditions the round
trip fails — see the counterexample of an already-indeterminate toggle.) -/
theorem apply_extract_roundtrip_by_kind :
    (∀ (el : Elem) (option : String) (vals : List (String × JSVal))
        (p : DefaultOptionProvider) (rem : Remembered) (v : JSVal),
      objHas vals option = true → objGet vals option = v →
      dispatchType el = .str "checkbox" → el.indeterminate = false →
      (v = .null ∨ v = .bool true ∨ v = .bool false) →
      (applyThenExtract option el vals p rem).map Prod.snd = .ok v)
    ∧ (∀ (el : Elem) (option : String) (vals : List (String × JSVal))
        (p : DefaultOptionProvider) (rem : Remembered) (v : JSVal),
      objHas vals option = true → objGet vals option = v →
      (dispatchType el = .str "number" ∨ dispatchType el = .str "range") →
      (∀ n : Int, v = .num n →
        (applyThenExtract option el vals p rem).map Prod.snd = .ok v))
    ∧ (∀ (el : Elem) (option : String) (vals : List (String × JSVal))
        (p : DefaultOptionProvider) (rem : Remembered) (v : JSVal),
      objHas vals option = true → objGet vals option = v →
      (dispatchType el).strictEq (.str "checkbox") = false →
      (dispatchType el).strictEq (.str "radiogroup") = false →
      (dispatchType el).strictEq (.str "number") = false →
      (dispatchType el).strictEq (.str "range") = false →
      (applyThenExtract option el vals p rem).map Prod.snd = .ok v)
    ∧ (∀ (el : Elem) (option : String) (vals : List (String × JSVal))
        (p : DefaultOptionProvider) (rem : Remembered) (s : String),
      objHas vals option = true → objGet vals option = .str s →
      dispatchType el = .str "radiogroup" →
      el.selectedElement = none →
      (∀ c ∈ el.children, c.checkedAttr = false) →
      ∀ c₀, el.children.find?
          (fun c => c.typeAttr == some "radio" && c.valueAttr == some s)
        = some c₀ →
      c₀.value = .str s →
      (applyThenExtract option el vals p rem).map Prod.snd = .ok (.str s)) := by
  refine ⟨?_, ?_, ?_, ?_⟩
  · intro el option vals p rem v hhas hval ht hind hv
    have ht₂ : jsOr (attrToJS el.typeAttr) (attrToJS el.dataTypeAttr)
        = .str "checkbox" := ht
    rcases hv with hv | hv | hv <;> subst hv <;>
      simp [applyThenExtract, applyOptionToElement, hhas, hval, writeToElement,
        dispatchType, ht₂, strictEq_str_str, JSVal.strictEq, JSVal.isNull,
        getIdAndOptionFromElement, hind, Except.map]
  · intro el option vals p rem v hhas hval ht n hn
    subst hn
    rcases ht with ht | ht <;>
    · have ht₂ : jsOr (attrToJS el.typeAttr) (attrToJS el.dataTypeAttr)
          = dispatchType el := rfl
      rw [ht] at ht₂
      simp [applyThenExtract, applyOptionToElement, hhas, hval, writeToElement,
        dispatchType, ht₂, strictEq_str_str, JSVal.isNull,
        getIdAndOptionFromElement, jsToNumber, Except.map]
  · intro el option vals p rem v hhas hval hcb hrg hnum hrange
    have hcb₂ : (jsOr (attrToJS el.typeAttr) (attrToJS el.dataTypeAttr)).strictEq
        (.str "checkbox") = false := hcb
    have hrg₂ : (jsOr (attrToJS el.typeAttr) (attrToJS el.dataTypeAttr)).strictEq
        (.str "radiogroup") = false := hrg
    have hnum₂ : (jsOr (attrToJS el.typeAttr) (attrToJS el.dataTypeAttr)).strictEq
        (.str "number") = false := hnum
    have hrange₂ : (jsOr (attrToJS el.typeAttr) (attrToJS el.dataTypeAttr)).strictEq
        (.str "range") = false := hrange
    simp [applyThenExtract, applyOptionToElement, hhas, hval, writeToElement,
      dispatchType, hcb₂, hrg₂, hnum₂, hrange₂, JSVal.isNull,
      getIdAndOptionFromElement, Except.map]
  · intro el option vals p rem s hhas hval ht hsel hall c₀ hfind hcv
    have ht₂ : jsOr (attrToJS el.typeAttr) (attrToJS el.dataTypeAttr)
        = .str "radiogroup" := ht
    have hmap := find_checked_after_write el.children s hall
    rw [hfind, Option.map_some'] at hmap
    have happly : applyOptionToElement option none el vals p rem
        = .ok (writeToElement el (.str s), rem) := by
      simp [applyOptionToElement, hhas, hval]
    have hwrite : writeToElement el (.str s)
        = { el with children := el.children.map (setCheckedIfMatches (.str s)) } := by
      simp [writeToElement, dispatchType, ht₂, strictEq_str_str]
    have hstep : applyThenExtract option el vals p rem
        = getIdAndOptionFromElement
            { el with children := el.children.map (setCheckedIfMatches (.str s)) } := by
      rw [applyThenExtract, happly, hwrite]
    have hselect : getSelectedFromRadioGroup
        { el with children := el.children.map (setCheckedIfMatches (.str s)) }
        = .ok { c₀ with checkedAttr := true } := by
      rw [getSelectedFromRadioGroup]
      simp only [hsel, hmap]
    rw [hstep]
    simp [getIdAndOptionFromElement, dispatchType, ht₂, strictEq_str_str,
      hselect, hcv, Except.map]

/-- Witness for the amended C3 at concrete inputs: the round trip holds for
a clean toggle receiving `true`, a number widget receiving `7`, a text
widget receiving `"hello"`, and a radiogroup receiving `"one"` with a
matching radio child. -/
theorem apply_extract_roundtrip_by_kind_witness :
    (applyThenExtract "c" elCheckboxC [("c", .bool true)] .nullProvider []).map
        Prod.snd = .ok (.bool true)
    ∧ (applyThenExtract "b" elNumberB [("b", .num 7)] .nullProvider []).map
        Prod.snd = .ok (.num 7)
    ∧ (applyThenExtract "a" elTextA [("a", .str "hello")] .nullProvider []).map
        Prod.snd = .ok (.str "hello")
    ∧ (applyThenExtract "rg" elRadiogroup [("rg", .str "one")] .nullProvider []).map
        Prod.snd = .ok (.str "one") :=
  ⟨apply_extract_roundtrip_by_kind.1 elCheckboxC "c" [("c", .bool true)]
      .nullProvider [] (.bool true) rfl rfl rfl rfl (Or.inr (Or.inl rfl)),
   apply_extract_roundtrip_by_kind.2.1 elNumberB "b" [("b", .num 7)]
      .nullProvider [] (.num 7) rfl rfl (Or.inl rfl) 7 rfl,
   apply_extract_roundtrip_by_kind.2.2.1 elTextA "a" [("a", .str "hello")]
      .nullProvider [] (.str "hello") rfl rfl rfl rfl rfl rfl,
   apply_extract_roundtrip_by_kind.2.2.2 elRadiogroup "rg" [("rg", .str "one")]
      .nullProvider [] "one" rfl rfl rfl rfl
      (by intro c hc
          simp only [elRadiogroup, List.mem_singleton] at hc
          subst hc
          rfl)
      radioOne rfl rfl⟩
